import Mathlib

/-!
Shallow embedding of `src/rdkafka_telemetry_encode.c` (librdkafka telemetry
metrics snapshot-and-encode engine) and proofs about it.

Modelling conventions:
- C `int64_t` / `int32_t` values are modelled as `Int` (no overflow is
  exercised by any statement below; all concrete inputs are tiny).
- C integer division (which truncates toward zero) is modelled by `Int.tdiv`.
- C `double` values are modelled by `ℚ`; every concrete value appearing in a
  statement below is exactly representable in IEEE double, and the only
  floating-point step in the source on such values is exact.
- Division by zero (undefined behavior in C) is modelled by returning `none`;
  likewise out-of-bounds reads/writes and NULL dereference are modelled as
  `none` / a `fault` outcome.
- A read of an uninitialized C local variable is modelled by threading the
  indeterminate value as an explicit parameter.
-/

/-- Running-statistics window `rd_avg_t.ra_v` as used by this file:
count, sum, max over the current interval, and the atomic reset flag. -/
structure AvgV where
  cnt : Int
  sum : Int
  maxvInterval : Int
  maxvReset : Int
  deriving DecidableEq

/-- Per-broker historic baseline `rkb_c_historic`. -/
structure BrokerHistoric where
  connects : Int
  assignedPartitions : Int
  tsLast : Int
  tsStart : Int
  rkb_avg_rtt : AvgV
  rkb_avg_throttle : AvgV
  rkb_avg_outbuf_latency : AvgV
  deriving DecidableEq

/-- The slice of `rd_kafka_broker_t` read by the telemetry encoder. -/
structure Broker where
  nodeid : Int
  connects : Int
  topparCnt : Int
  rkb_avg_rtt : AvgV
  rkb_avg_throttle : AvgV
  rkb_avg_outbuf_latency : AvgV
  historic : BrokerHistoric
  deriving DecidableEq

/-- Client role `rk_type` (producer, consumer, or anything else). -/
inductive ClientType where
  | producer
  | consumer
  | other
  deriving DecidableEq

/-- The slice of `rd_kafka_t` read by the telemetry encoder.  `brokerCnt`
models the separate counter `rk_broker_cnt.val`; `memberId` models
`rk_cgrp->rkcg_member_id` (the consumer-group object is modelled as present,
with an absent/empty member id expressed through the `Option`/length). -/
structure Client where
  rkType : ClientType
  name : String
  brokers : List Broker
  brokerCnt : Int
  deltaTemporality : Bool
  matchedMetrics : List Nat
  clientRack : Option String
  groupIdStr : Option String
  groupInstanceId : Option String
  memberId : Option String
  transactionalId : Option String
  deriving DecidableEq

/-- `RDKAFKA_TELEMETRY_NS_TO_MS_FACTOR`. -/
def NS_TO_MS_FACTOR : Int := 1000000

/-- Tagged value union `rd_kafka_telemetry_metric_value_t`. -/
inductive MetricValue where
  | i (v : Int)
  | d (v : ℚ)
  deriving DecidableEq

/-- `calculate_connection_creation_total`: sum of per-broker connect counts,
as deltas against the baseline in delta-temporality mode. -/
def calculate_connection_creation_total (rk : Client) : Int :=
  rk.brokers.foldl
    (fun acc rkb =>
      if !rk.deltaTemporality then acc + rkb.connects
      else acc + (rkb.connects - rkb.historic.connects))
    0

/-- The `ts_last` value left in the loop variable of
`calculate_connection_creation_rate`: the last iterated broker's
`rkb_c_historic.ts_last`, or the initializer 0 when there are no brokers. -/
def connRateTsLast (rk : Client) : Int :=
  rk.brokers.foldl (fun _ rkb => rkb.historic.tsLast) 0

/-- `calculate_connection_creation_rate`.  `nowNs` stands for the
`rd_uclock() * 1000` call; the C route through `double` division by `1e9`
followed by conversion to `int` truncates toward zero, which `Int.tdiv`
reproduces exactly at the magnitudes of every interval considered here. -/
def calculate_connection_creation_rate (rk : Client) (nowNs : Int) : ℚ :=
  let tsLast := connRateTsLast rk
  let total : ℚ :=
    rk.brokers.foldl
      (fun acc rkb => acc + ((rkb.connects - rkb.historic.connects : Int) : ℚ)) 0
  let seconds : Int := Int.tdiv (nowNs - tsLast) 1000000000
  if seconds > 0 then total / (seconds : ℚ) else total

/-- `calculate_broker_avg_rtt`: per-broker average round-trip time.  The C
division `sum_diff / (cnt_diff * RDKAFKA_TELEMETRY_NS_TO_MS_FACTOR)` is
`int64_t` division (truncating), whose result is then widened to `double`. -/
def calculate_broker_avg_rtt (broker : Broker) : ℚ :=
  let currentCnt := broker.rkb_avg_rtt.cnt
  let historicCnt := broker.historic.rkb_avg_rtt.cnt
  if currentCnt > historicCnt then
    let currentSum := broker.rkb_avg_rtt.sum
    let historicSum := broker.historic.rkb_avg_rtt.sum
    ((Int.tdiv (currentSum - historicSum)
        ((currentCnt - historicCnt) * NS_TO_MS_FACTOR) : Int) : ℚ)
  else 0

/-- `calculate_broker_max_rtt`. -/
def calculate_broker_max_rtt (broker : Broker) : Int :=
  Int.tdiv broker.rkb_avg_rtt.maxvInterval NS_TO_MS_FACTOR

/-- `calculate_throttle_avg`: per-broker averages of new throttle
observations, summed, then divided by `rk_broker_cnt.val`.  The source
performs that final `int64_t` division unconditionally; a zero broker count
is a division by zero (undefined behavior), modelled as `none`. -/
def calculate_throttle_avg (rk : Client) : Option Int :=
  let sumValue :=
    rk.brokers.foldl
      (fun acc rkb =>
        let currentCnt := rkb.rkb_avg_throttle.cnt
        let historicCnt := rkb.historic.rkb_avg_throttle.cnt
        if currentCnt > historicCnt then
          acc + Int.tdiv (rkb.rkb_avg_throttle.sum - rkb.historic.rkb_avg_throttle.sum)
              ((currentCnt - historicCnt) * NS_TO_MS_FACTOR)
        else acc)
      0
  if rk.brokerCnt = 0 then none
  else some (Int.tdiv sumValue rk.brokerCnt)

/-- `calculate_throttle_max`. -/
def calculate_throttle_max (rk : Client) : Int :=
  Int.tdiv
    (rk.brokers.foldl (fun acc rkb => max acc rkb.rkb_avg_throttle.maxvInterval) 0)
    NS_TO_MS_FACTOR

/-- `calculate_queue_time_avg`: identical shape to `calculate_throttle_avg`
over `rkb_avg_outbuf_latency`, with the same unguarded division by
`rk_broker_cnt.val`. -/
def calculate_queue_time_avg (rk : Client) : Option Int :=
  let sumValue :=
    rk.brokers.foldl
      (fun acc rkb =>
        let currentCnt := rkb.rkb_avg_outbuf_latency.cnt
        let historicCnt := rkb.historic.rkb_avg_outbuf_latency.cnt
        if currentCnt > historicCnt then
          acc + Int.tdiv
              (rkb.rkb_avg_outbuf_latency.sum - rkb.historic.rkb_avg_outbuf_latency.sum)
              ((currentCnt - historicCnt) * NS_TO_MS_FACTOR)
        else acc)
      0
  if rk.brokerCnt = 0 then none
  else some (Int.tdiv sumValue rk.brokerCnt)

/-- `calculate_queue_time_max`. -/
def calculate_queue_time_max (rk : Client) : Int :=
  Int.tdiv
    (rk.brokers.foldl (fun acc rkb => max acc rkb.rkb_avg_outbuf_latency.maxvInterval) 0)
    NS_TO_MS_FACTOR

/-- `calculate_consumer_assigned_partitions`. -/
def calculate_consumer_assigned_partitions (rk : Client) : Int :=
  rk.brokers.foldl
    (fun acc rkb => acc + rkb.topparCnt - rkb.historic.assignedPartitions) 0

/-- `reset_historical_metrics`: per broker, copies current assigned-partition
and connect counts, stamps `ts_last` with the current time, copies each whole
`ra_v` running-statistics struct into the baseline (the struct assignment in
the source copies count, sum and max fields alike), and raises each live
tracker's `maxv_reset` flag.  `ts_start` of the baseline is never written.
The source calls `rd_uclock()` once per broker; the single `nowNs` parameter
stands for those calls. -/
def reset_historical_metrics (rk : Client) (nowNs : Int) : Client :=
  { rk with
    brokers := rk.brokers.map (fun rkb =>
      { rkb with
        historic := { rkb.historic with
          assignedPartitions := rkb.topparCnt
          connects := rkb.connects
          tsLast := nowNs
          rkb_avg_rtt := rkb.rkb_avg_rtt
          rkb_avg_throttle := rkb.rkb_avg_throttle
          rkb_avg_outbuf_latency := rkb.rkb_avg_outbuf_latency }
        rkb_avg_rtt := { rkb.rkb_avg_rtt with maxvReset := 1 }
        rkb_avg_throttle := { rkb.rkb_avg_throttle with maxvReset := 1 }
        rkb_avg_outbuf_latency :=
          { rkb.rkb_avg_outbuf_latency with maxvReset := 1 } }) }

/-- `get_client_rack`: the configured rack, only when non-empty. -/
def get_client_rack (rk : Client) : Option String :=
  match rk.clientRack with
  | some s => if s.length > 0 then some s else none
  | none => none

/-- `get_group_id`: the configured group id whenever the pointer is set,
with no emptiness check. -/
def get_group_id (rk : Client) : Option String :=
  rk.groupIdStr

/-- `get_group_instance_id`: the configured group instance id whenever set,
with no emptiness check. -/
def get_group_instance_id (rk : Client) : Option String :=
  rk.groupInstanceId

/-- `get_member_id`: the consumer-group member id, only when non-empty. -/
def get_member_id (rk : Client) : Option String :=
  match rk.memberId with
  | some s => if s.length > 0 then some s else none
  | none => none

/-- `get_transactional_id`: the configured transactional id whenever set,
with no emptiness check. -/
def get_transactional_id (rk : Client) : Option String :=
  rk.transactionalId

/-- One row of an attribute-config table: name plus value accessor. -/
structure AttributeConfig where
  name : String
  getValue : Client → Option String

/-- `producer_attributes` table. -/
def producerAttributeConfigs : List AttributeConfig :=
  [⟨"client_rack", get_client_rack⟩,
   ⟨"transactional_id", get_transactional_id⟩]

/-- `consumer_attributes` table. -/
def consumerAttributeConfigs : List AttributeConfig :=
  [⟨"client_rack", get_client_rack⟩,
   ⟨"group_id", get_group_id⟩,
   ⟨"group_instance_id", get_group_instance_id⟩,
   ⟨"member_id", get_member_id⟩]

/-- `count_attributes`. -/
def count_attributes (rk : Client) (configs : List AttributeConfig) : Nat :=
  configs.foldl (fun c cfg => if (cfg.getValue rk).isSome then c + 1 else c) 0

/-- `set_attributes`.  The source writes through `attributes[attr_idx]->`,
i.e. it indexes the caller-supplied single *pointer*, not the allocated
array: index 0 aliases the array's first element, but any later write
dereferences out-of-bounds stack memory (undefined behavior, `none`). -/
def set_attributes (rk : Client) (configs : List AttributeConfig) :
    Option (List (String × String)) :=
  (configs.foldl
    (fun acc cfg =>
      match acc with
      | none => none
      | some (attrIdx, out) =>
        match cfg.getValue rk with
        | none => some (attrIdx, out)
        | some v =>
          if attrIdx = 0 then some (attrIdx + 1, out ++ [(cfg.name, v)])
          else none)
    (some (0, []))).map (fun st => st.2)

/-- `resource_attributes`: selects the role table, returns the empty set for
an unmatched role or when no accessor yields a value, and otherwise fills
the freshly allocated attribute array via `set_attributes`. -/
def resource_attributes (rk : Client) : Option (List (String × String)) :=
  match rk.rkType with
  | .other => some []
  | .producer =>
    if count_attributes rk producerAttributeConfigs = 0 then some []
    else set_attributes rk producerAttributeConfigs
  | .consumer =>
    if count_attributes rk consumerAttributeConfigs = 0 then some []
    else set_attributes rk consumerAttributeConfigs

/-- Aggregation kind of a catalog entry (`RD_KAFKA_TELEMETRY_METRIC_TYPE_*`). -/
inductive MetricType where
  | sum
  | gauge
  deriving DecidableEq

/-- Catalog entry `rd_kafka_telemetry_metric_info_t`. -/
structure MetricInfo where
  name : String
  description : String
  is_int : Bool
  type : MetricType
  deriving DecidableEq

/-- Modelled from the spec: the producer metric-id enum of
`rdkafka_telemetry_encode.h` (not under `src/`), "indexed by a small enum"
in the catalog order fixed by the calculator dispatch tables. -/
def METRIC_PRODUCER_CONNECTION_CREATION_RATE : Nat := 0

/-- Modelled from the spec: producer enum, see
`METRIC_PRODUCER_CONNECTION_CREATION_RATE`. -/
def METRIC_PRODUCER_CONNECTION_CREATION_TOTAL : Nat := 1

/-- Modelled from the spec: producer enum, see
`METRIC_PRODUCER_CONNECTION_CREATION_RATE`. -/
def METRIC_PRODUCER_NODE_REQUEST_LATENCY_AVG : Nat := 2

/-- Modelled from the spec: producer enum, see
`METRIC_PRODUCER_CONNECTION_CREATION_RATE`. -/
def METRIC_PRODUCER_NODE_REQUEST_LATENCY_MAX : Nat := 3

/-- Modelled from the spec: producer enum, see
`METRIC_PRODUCER_CONNECTION_CREATION_RATE`. -/
def METRIC_PRODUCER_PRODUCE_THROTTLE_TIME_AVG : Nat := 4

/-- Modelled from the spec: producer enum, see
`METRIC_PRODUCER_CONNECTION_CREATION_RATE`. -/
def METRIC_PRODUCER_PRODUCE_THROTTLE_TIME_MAX : Nat := 5

/-- Modelled from the spec: producer enum, see
`METRIC_PRODUCER_CONNECTION_CREATION_RATE`. -/
def METRIC_PRODUCER_RECORD_QUEUE_TIME_AVG : Nat := 6

/-- Modelled from the spec: producer enum, see
`METRIC_PRODUCER_CONNECTION_CREATION_RATE`. -/
def METRIC_PRODUCER_RECORD_QUEUE_TIME_MAX : Nat := 7

/-- Modelled from the spec: the consumer metric-id enum of
`rdkafka_telemetry_encode.h`, in catalog order. -/
def METRIC_CONSUMER_CONNECTION_CREATION_RATE : Nat := 0

/-- Modelled from the spec: consumer enum, see
`METRIC_CONSUMER_CONNECTION_CREATION_RATE`. -/
def METRIC_CONSUMER_CONNECTION_CREATION_TOTAL : Nat := 1

/-- Modelled from the spec: consumer enum, see
`METRIC_CONSUMER_CONNECTION_CREATION_RATE`. -/
def METRIC_CONSUMER_NODE_REQUEST_LATENCY_AVG : Nat := 2

/-- Modelled from the spec: consumer enum, see
`METRIC_CONSUMER_CONNECTION_CREATION_RATE`. -/
def METRIC_CONSUMER_NODE_REQUEST_LATENCY_MAX : Nat := 3

/-- Modelled from the spec: consumer enum, see
`METRIC_CONSUMER_CONNECTION_CREATION_RATE`. -/
def METRIC_CONSUMER_COORDINATOR_ASSIGNED_PARTITIONS : Nat := 4

/-- `is_per_broker_metric`: a static predicate on (role, metric index);
only the node-request-latency avg/max metrics are broker-scoped. -/
def is_per_broker_metric (rk : Client) (metricIdx : Nat) : Bool :=
  (rk.rkType = ClientType.producer &&
    (metricIdx = METRIC_PRODUCER_NODE_REQUEST_LATENCY_AVG ||
     metricIdx = METRIC_PRODUCER_NODE_REQUEST_LATENCY_MAX)) ||
  (rk.rkType = ClientType.consumer &&
    (metricIdx = METRIC_CONSUMER_NODE_REQUEST_LATENCY_AVG ||
     metricIdx = METRIC_CONSUMER_NODE_REQUEST_LATENCY_MAX))

/-- Calculator shape `rd_kafka_telemetry_metric_value_calculator_t`:
client state, the (possibly NULL) broker argument, and the current time for
the one calculator that reads the clock; `none` models a fault (NULL broker
dereference or division by zero). -/
def CalcFn : Type :=
  Client → Option Broker → Int → Option MetricValue

/-- `PRODUCER_METRIC_VALUE_CALCULATORS` dispatch table; `none` for an index
outside the table (an out-of-bounds read of the static array). -/
def producerCalculator (idx : Nat) : Option CalcFn :=
  match idx with
  | 0 => some (fun rk _ nowNs => some (.d (calculate_connection_creation_rate rk nowNs)))
  | 1 => some (fun rk _ _ => some (.i (calculate_connection_creation_total rk)))
  | 2 => some (fun _ rkb _ => rkb.map (fun b => .d (calculate_broker_avg_rtt b)))
  | 3 => some (fun _ rkb _ => rkb.map (fun b => .i (calculate_broker_max_rtt b)))
  | 4 => some (fun rk _ _ => (calculate_throttle_avg rk).map .i)
  | 5 => some (fun rk _ _ => some (.i (calculate_throttle_max rk)))
  | 6 => some (fun rk _ _ => (calculate_queue_time_avg rk).map .i)
  | 7 => some (fun rk _ _ => some (.i (calculate_queue_time_max rk)))
  | _ => none

/-- `CONSUMER_METRIC_VALUE_CALCULATORS` dispatch table. -/
def consumerCalculator (idx : Nat) : Option CalcFn :=
  match idx with
  | 0 => some (fun rk _ nowNs => some (.d (calculate_connection_creation_rate rk nowNs)))
  | 1 => some (fun rk _ _ => some (.i (calculate_connection_creation_total rk)))
  | 2 => some (fun _ rkb _ => rkb.map (fun b => .d (calculate_broker_avg_rtt b)))
  | 3 => some (fun _ rkb _ => rkb.map (fun b => .i (calculate_broker_max_rtt b)))
  | 4 => some (fun rk _ _ => some (.i (calculate_consumer_assigned_partitions rk)))
  | _ => none

/-- Calculator lookup as performed inside the encode loop (role-keyed). -/
def calculatorFor (rk : Client) (idx : Nat) : Option CalcFn :=
  if rk.rkType = ClientType.producer then producerCalculator idx
  else consumerCalculator idx

/-- Modelled from the spec: `RD_KAFKA_TELEMETRY_METRIC_PREFIX`, the fixed
namespace prefix (header constant not under `src/`). -/
def telemetryMetricPrefix : String := "org.apache.kafka."

/-- Modelled from the spec: the static producer metric catalog
(`RD_KAFKA_TELEMETRY_METRIC_INFO` for a producer; header data not under
`src/`).  Aggregation kinds: totals are monotonic SUM, rates/averages/maxima
are GAUGE; rate and average latency are floating point, the rest integers. -/
def producerMetricsInfo : List MetricInfo :=
  [⟨"producer.connection.creation.rate", "connection creation rate", false, .gauge⟩,
   ⟨"producer.connection.creation.total", "connection creation total", true, .sum⟩,
   ⟨"producer.node.request.latency.avg", "node request latency avg", false, .gauge⟩,
   ⟨"producer.node.request.latency.max", "node request latency max", true, .gauge⟩,
   ⟨"producer.produce.throttle.time.avg", "produce throttle time avg", true, .gauge⟩,
   ⟨"producer.produce.throttle.time.max", "produce throttle time max", true, .gauge⟩,
   ⟨"producer.record.queue.time.avg", "record queue time avg", true, .gauge⟩,
   ⟨"producer.record.queue.time.max", "record queue time max", true, .gauge⟩]

/-- Modelled from the spec: the static consumer metric catalog. -/
def consumerMetricsInfo : List MetricInfo :=
  [⟨"consumer.connection.creation.rate", "connection creation rate", false, .gauge⟩,
   ⟨"consumer.connection.creation.total", "connection creation total", true, .sum⟩,
   ⟨"consumer.node.request.latency.avg", "node request latency avg", false, .gauge⟩,
   ⟨"consumer.node.request.latency.max", "node request latency max", true, .gauge⟩,
   ⟨"consumer.coordinator.assigned.partitions", "assigned partitions", true, .gauge⟩]

/-- `RD_KAFKA_TELEMETRY_METRIC_INFO(rk)`: role-keyed catalog selection. -/
def metricsInfoFor (rk : Client) : List MetricInfo :=
  if rk.rkType = ClientType.producer then producerMetricsInfo
  else consumerMetricsInfo

/-- The fields of `opentelemetry_proto_metrics_v1_NumberDataPoint` that the
encoder populates: the value-variant tag with its value, the two timestamps,
and the optional `node_id` datapoint attribute. -/
structure NumberDataPoint where
  isInt : Bool
  valueInt : Int
  valueDouble : ℚ
  timeUnixNano : Int
  startTimeUnixNano : Int
  attrNodeId : Option Int
  deriving DecidableEq

/-- One built `opentelemetry_proto_metrics_v1_Metric` node: name (with the
namespace prefix), description, data variant (SUM with delta/cumulative
temporality, or GAUGE), and its single datapoint. -/
structure MetricNode where
  name : String
  description : String
  mtype : MetricType
  sumTemporalityDelta : Bool
  dataPoint : NumberDataPoint
  deriving DecidableEq

/-- `serializeMetricData`.  Faithful details: the calculator runs with the
broker argument as passed; the union member read is selected by
`info->is_int` (reading the member the calculator did not write is an
unspecified reinterpretation, modelled `none`); the `ts_last`/`ts_start`
locals are filled from the FIRST broker of the client list and stay
uninitialized when that list is empty (`uninitTsLast`/`uninitTsStart`); the
the per-broker `node_id` attribute reads the loop variable `rkb` AFTER that
first-broker loop clobbered it, so it is the first broker's node id. -/
def serializeMetricData (rk : Client) (rkb : Option Broker) (info : MetricInfo)
    (calcFn : CalcFn) (isPerBroker : Bool)
    (nowNs uninitTsLast uninitTsStart : Int) : Option MetricNode := do
  let v ← calcFn rk rkb nowNs
  let dpVal : Bool × Int × ℚ ←
    if info.is_int then
      match v with
      | .i x => some (true, x, (0 : ℚ))
      | .d _ => none
    else
      match v with
      | .d q => some (false, (0 : Int), q)
      | .i _ => none
  let tsPair : Int × Int :=
    match rk.brokers with
    | [] => (uninitTsLast, uninitTsStart)
    | b :: _ => (b.historic.tsLast, b.historic.tsStart)
  let startTs : Int :=
    if info.type = MetricType.gauge then tsPair.1 else tsPair.2
  let attr : Option Int ←
    if isPerBroker then
      match rk.brokers.head? with
      | none => none
      | some b => some (some b.nodeid)
    else some none
  pure
    { name := telemetryMetricPrefix ++ info.name
      description := info.description
      mtype := info.type
      sumTemporalityDelta := rk.deltaTemporality
      dataPoint :=
        { isInt := dpVal.1
          valueInt := dpVal.2.1
          valueDouble := dpVal.2.2
          timeUnixNano := nowNs
          startTimeUnixNano := startTs
          attrNodeId := attr } }

/-- The sizing loop of `rd_kafka_telemetry_encode_metrics`: starts from the
matched-metric count and, for every *array index* `i` (not the metric id
stored there) that `is_per_broker_metric` deems broker-scoped, adds
`rk_broker_cnt.val - 1`.  Computed in `size_t` in the source; the result is
provably the number of non-broker-scoped indices here, so no wraparound
occurs and `Int` is exact. -/
def totalMetricsCountInt (rk : Client) : Int :=
  (List.range rk.matchedMetrics.length).foldl
    (fun acc i =>
      if is_per_broker_metric rk i then acc + (rk.brokerCnt - 1) else acc)
    (rk.matchedMetrics.length : Int)

/-- A write of one built metric into the `metrics`/`data_points` arrays at
the running `metric_idx`; writing past the allocated length is a heap
overflow (`none`). -/
def slotWrite (slots : List (Option MetricNode)) (idx : Nat) (node : MetricNode) :
    Option (List (Option MetricNode)) :=
  match slots, idx with
  | [], _ => none
  | _ :: rest, 0 => some (some node :: rest)
  | s :: rest, i + 1 => (slotWrite rest i node).map (fun r => s :: r)

/-- The metric-building loop of `rd_kafka_telemetry_encode_metrics`: for each
matched metric id, looks up calculator and catalog entry BY THE STORED ID,
then fills one slot per linked broker for broker-scoped ids and one slot
otherwise. -/
def buildMetrics (rk : Client) (nowNs uninitTsLast uninitTsStart : Int)
    (total : Nat) : Option (List (Option MetricNode) × Nat) :=
  rk.matchedMetrics.foldlM
    (fun (st : List (Option MetricNode) × Nat) metricId => do
      let calcFn ← calculatorFor rk metricId
      let info ← (metricsInfoFor rk)[metricId]?
      if is_per_broker_metric rk metricId then
        rk.brokers.foldlM
          (fun st2 b => do
            let node ← serializeMetricData rk (some b) info calcFn true
                nowNs uninitTsLast uninitTsStart
            let slots ← slotWrite st2.1 st2.2 node
            pure (slots, st2.2 + 1))
          st
      else do
        let node ← serializeMetricData rk none info calcFn false
            nowNs uninitTsLast uninitTsStart
        let slots ← slotWrite st.1 st.2 node
        pure (slots, st.2 + 1))
    (List.replicate total none, 0)

/-- `InstrumentationScope` name/version plus the metric list, i.e. the
`ScopeMetrics` node attached when any metric slot exists. -/
structure ScopeMetricsT where
  scopeName : String
  scopeVersion : String
  metrics : List MetricNode
  deriving DecidableEq

/-- The single `ResourceMetrics` entry: resource attributes are attached
only when at least one was produced. -/
structure ResourceMetricsT where
  resourceAttrs : Option (List (String × String))
  scopeMetrics : ScopeMetricsT
  deriving DecidableEq

/-- Modelled from the spec: `rd_kafka_version_str()` (outside this core). -/
def rdKafkaVersionStr : String := "2.x.y"

/-- Outcome of one encode call: `fault` for undefined behavior (division by
zero, out-of-bounds array access, NULL/uninitialized-pointer dereference),
`failed` for the NULL-returning error exits (size pass, allocation, write
pass), `ok` with the assembled `MetricsData` tree — `none` standing for the
empty message sent when no metric slot exists. -/
inductive EncodeOutcome where
  | fault
  | failed
  | ok (md : Option ResourceMetricsT)
  deriving DecidableEq

/-- Everything of `rd_kafka_telemetry_encode_metrics` that can hit undefined
behavior, in source order: the resource-attribute builder, the metric
building loop, and the dereference of all `total` metric slots performed by
the `encode_metric` callback during the two streaming passes (a slot never
written holds an uninitialized pointer). -/
def buildPhase (rk : Client) (nowNs uninitTsLast uninitTsStart : Int) :
    Option (List (String × String) × Option (List MetricNode)) := do
  let ra ← resource_attributes rk
  let total := (totalMetricsCountInt rk).toNat
  let built ← buildMetrics rk nowNs uninitTsLast uninitTsStart total
  let nodesOpt : Option (List MetricNode) ←
    if total > 0 then (built.1.mapM id).map some
    else some none
  pure (ra, nodesOpt)

/-- Assembles the `MetricsData` message exactly as the source wires it:
nothing at all when no metric slot exists, otherwise one `ResourceMetrics`
with the resource attributes (only when non-empty) and one `ScopeMetrics`
naming the client and library version. -/
def mkMetricsData (rk : Client) (ra : List (String × String))
    (nodesOpt : Option (List MetricNode)) : Option ResourceMetricsT :=
  nodesOpt.map (fun nodes =>
    { resourceAttrs := if ra.length > 0 then some ra else none
      scopeMetrics :=
        { scopeName := rk.name
          scopeVersion := rdKafkaVersionStr
          metrics := nodes } })

/-- `rd_kafka_telemetry_encode_metrics`.  `sizeOk`/`allocOk`/`writeOk` is
the failure oracle for `pb_get_encoded_size`, the output-buffer `rd_malloc`,
and `pb_encode` (external collaborators).  Returns the outcome, the client
state after the call, and the number of `reset_historical_metrics`
invocations performed. -/
def rd_kafka_telemetry_encode_metrics (rk : Client)
    (nowNs uninitTsLast uninitTsStart : Int)
    (sizeOk allocOk writeOk : Bool) : EncodeOutcome × Client × Nat :=
  match buildPhase rk nowNs uninitTsLast uninitTsStart with
  | none => (.fault, rk, 0)
  | some (ra, nodesOpt) =>
    if !sizeOk then (.failed, rk, 0)
    else if !allocOk then (.failed, rk, 0)
    else if !writeOk then (.failed, rk, 0)
    else (.ok (mkMetricsData rk ra nodesOpt), reset_historical_metrics rk nowNs, 1)

/-- Number of metric entries carried by an assembled `MetricsData` tree. -/
def countMetricEntries : Option ResourceMetricsT → Nat
  | none => 0
  | some r => r.scopeMetrics.metrics.length

/-- Metric-entry count of an encode outcome (`none` unless the call
succeeded). -/
def outcomeMetricCount : EncodeOutcome → Option Nat
  | .ok md => some (countMetricEntries md)
  | _ => none

/-- Start timestamps of the metric nodes of a successful outcome. -/
def outcomeNodeStarts : EncodeOutcome → Option (List Int)
  | .ok none => some []
  | .ok (some r) => some (r.scopeMetrics.metrics.map (fun n => n.dataPoint.startTimeUnixNano))
  | _ => none

/-- Specification-side formula (from the claim wording): the raw
client-wide connection delta, the sum over brokers of current minus
baseline connect counts. -/
def rawConnDeltaSum (rk : Client) : Int :=
  (rk.brokers.map (fun b => b.connects - b.historic.connects)).sum

/-- Specification-side reading of the timestamp the rate calculator divides
against: the LAST linked broker's baseline `ts_last` (0 with no brokers). -/
def connRateTsLastSpec (rk : Client) : Int :=
  (rk.brokers.getLast?.map (fun b => b.historic.tsLast)).getD 0

/-- Specification-side formula (from the amended C9 claim) for what reset
does to one broker: baseline receives the current connect count, the current
assigned-partition count, the reset time as `ts_last`, and the ENTIRE
current running-statistics structs; baseline `ts_start` is kept; the live
counters are untouched except that every `maxv_reset` flag is raised. -/
def resetBrokerSpec (nowNs : Int) (rkb : Broker) : Broker :=
  { nodeid := rkb.nodeid
    connects := rkb.connects
    topparCnt := rkb.topparCnt
    rkb_avg_rtt :=
      { cnt := rkb.rkb_avg_rtt.cnt
        sum := rkb.rkb_avg_rtt.sum
        maxvInterval := rkb.rkb_avg_rtt.maxvInterval
        maxvReset := 1 }
    rkb_avg_throttle :=
      { cnt := rkb.rkb_avg_throttle.cnt
        sum := rkb.rkb_avg_throttle.sum
        maxvInterval := rkb.rkb_avg_throttle.maxvInterval
        maxvReset := 1 }
    rkb_avg_outbuf_latency :=
      { cnt := rkb.rkb_avg_outbuf_latency.cnt
        sum := rkb.rkb_avg_outbuf_latency.sum
        maxvInterval := rkb.rkb_avg_outbuf_latency.maxvInterval
        maxvReset := 1 }
    historic :=
      { connects := rkb.connects
        assignedPartitions := rkb.topparCnt
        tsLast := nowNs
        tsStart := rkb.historic.tsStart
        rkb_avg_rtt := rkb.rkb_avg_rtt
        rkb_avg_throttle := rkb.rkb_avg_throttle
        rkb_avg_outbuf_latency := rkb.rkb_avg_outbuf_latency } }

/-- All-zero running statistics. -/
def avgZero : AvgV := ⟨0, 0, 0, 0⟩

/-- All-zero baseline. -/
def histZero : BrokerHistoric := ⟨0, 0, 0, 0, avgZero, avgZero, avgZero⟩

/-- A quiescent broker with the given node id. -/
def brokerZero (nid : Int) : Broker :=
  ⟨nid, 0, 0, avgZero, avgZero, avgZero, histZero⟩

/-- A producer client with no brokers and nothing configured. -/
def clientZero : Client where
  rkType := .producer
  name := "rdkafka"
  brokers := []
  brokerCnt := 0
  deltaTemporality := true
  matchedMetrics := []
  clientRack := none
  groupIdStr := none
  groupInstanceId := none
  memberId := none
  transactionalId := none

/-- C3 failing input: a producer with three linked brokers and the
broker-scoped node-request-latency-avg metric as the single matched metric. -/
def rkC3 : Client :=
  { clientZero with
    brokers := [brokerZero 1, brokerZero 2, brokerZero 3]
    brokerCnt := 3
    matchedMetrics := [METRIC_PRODUCER_NODE_REQUEST_LATENCY_AVG] }

/-- C8 failing input: a producer with zero linked brokers and the
client-scoped connection-creation-total metric matched. -/
def rkC8 : Client :=
  { clientZero with
    matchedMetrics := [METRIC_PRODUCER_CONNECTION_CREATION_TOTAL] }

/-- C6 failing input: a consumer whose configured group id is the empty
string (set, but empty). -/
def rkGidEmpty : Client :=
  { clientZero with rkType := .consumer, groupIdStr := some "" }

/-- C6 failing input: a consumer with two present attribute sources
(client rack and group id). -/
def rkTwoAttrs : Client :=
  { clientZero with
    rkType := .consumer
    clientRack := some "r1"
    groupIdStr := some "g1" }

/-- C7 witness input: a consumer with one broker, a configured group id,
and an empty matched-metric list. -/
def rkC7w : Client :=
  { clientZero with
    rkType := .consumer
    brokers := [brokerZero 7]
    brokerCnt := 1
    groupIdStr := some "g1" }

/-- C5 witness input: a broker with five RTT observations newer than the
baseline and a sum 50 ns above it. -/
def bC5w : Broker :=
  { brokerZero 1 with
    rkb_avg_rtt := ⟨9, 50, 0, 0⟩
    historic := { histZero with rkb_avg_rtt := ⟨4, 0, 0, 0⟩ } }

/-- C10 witness input: two brokers with distinct baseline timestamps (100
and 700) and connect deltas 3 each. -/
def rkC10w : Client :=
  { clientZero with
    brokerCnt := 2
    brokers :=
      [{ brokerZero 1 with
           connects := 5
           historic := { histZero with connects := 2, tsLast := 100 } },
       { brokerZero 2 with
           connects := 4
           historic := { histZero with connects := 1, tsLast := 700 } }] }

/-- C9 counterexample input: one broker whose live RTT max (9) differs from
its baseline RTT max copy (5), with a nonzero baseline `ts_start` (55). -/
def rkC9x : Client :=
  { clientZero with
    brokerCnt := 1
    brokers :=
      [{ brokerZero 1 with
           rkb_avg_rtt := ⟨2, 3, 9, 0⟩
           historic := { histZero with tsStart := 55, rkb_avg_rtt := ⟨1, 1, 5, 0⟩ } }] }

/-- The connect-delta accumulation of the rate calculator equals the initial
accumulator plus the mapped sum. -/
theorem foldl_connDelta_eq (l : List Broker) (init : ℚ) :
    l.foldl (fun acc rkb => acc + ((rkb.connects - rkb.historic.connects : Int) : ℚ)) init
      = init + (((l.map (fun b => b.connects - b.historic.connects)).sum : Int) : ℚ) := by
  induction l generalizing init with
  | nil => simp
  | cons b t ih =>
    simp only [List.foldl_cons, List.map_cons, List.sum_cons]
    rw [ih, Int.cast_add, Int.cast_sub]
    ring

/-- The overwrite-style fold of the rate calculator keeps the LAST element's
timestamp (or the initializer on an empty list). -/
theorem foldl_tsLast_eq (l : List Broker) (init : Int) :
    l.foldl (fun _ rkb => rkb.historic.tsLast) init
      = (l.getLast?.map (fun b => b.historic.tsLast)).getD init := by
  induction l generalizing init with
  | nil => simp
  | cons b t ih =>
    rw [List.foldl_cons, ih]
    cases t with
    | nil => simp
    | cons c u =>
      rw [List.getLast?_cons_cons]
      obtain ⟨x, hx⟩ := Option.isSome_iff_exists.mp
        (List.getLast?_isSome.mpr (List.cons_ne_nil c u))
      rw [hx]
      simp

/-- C1: refuted (code bug).  With a zero client-wide broker count the
average-throttle-time and average-queue-time calculators divide the summed
per-broker averages by zero — undefined behavior, modelled `none` — instead
of returning 0 as the claim states. -/
theorem c1_throttle_queue_avg_div_by_zero :
    clientZero.brokerCnt = 0 ∧
    calculate_throttle_avg clientZero = none ∧
    calculate_queue_time_avg clientZero = none := by
  decide

/-- C3: refuted (code bug).  The sizing loop classifies broker-scoping by
the loop INDEX instead of the matched metric id: with three brokers and the
single (broker-scoped) latency-avg metric matched, the claim's expected
entry count is 3, yet the allocated/encoded count is 1 and the build loop
overruns the arrays (undefined behavior, `fault`). -/
theorem c3_metric_count_index_id_mismatch :
    (rkC3.matchedMetrics.map
        (fun metricId =>
          if is_per_broker_metric rkC3 metricId then rkC3.brokers.length else 1)).sum = 3 ∧
    totalMetricsCountInt rkC3 = 1 ∧
    (rd_kafka_telemetry_encode_metrics rkC3 1000 0 0 true true true).1 = .fault := by
  decide

/-- C6: refuted (code bug).  `set_attributes` writes through the indexed
attribute POINTER, so a second present attribute is an out-of-bounds write
(`none` here); and the group-id accessor performs no emptiness check, so an
empty-string group id is included, violating "only if its accessor yields a
non-empty value". -/
theorem c6_resource_attributes_divergence :
    get_group_id rkGidEmpty = some "" ∧
    resource_attributes rkGidEmpty = some [("group_id", "")] ∧
    resource_attributes rkTwoAttrs = none := by
  decide

/-- C8: refuted (code bug).  With zero linked brokers the `ts_last` and
`ts_start` locals of `serializeMetricData` stay uninitialized, and the
datapoint start timestamp of a client-scoped metric (here the SUM-kind
connection total) is whatever garbage they hold — varying the modelled
indeterminate value changes the emitted start timestamp. -/
theorem c8_start_timestamp_uninitialized :
    rkC8.brokers = [] ∧
    (metricsInfoFor rkC8)[METRIC_PRODUCER_CONNECTION_CREATION_TOTAL]?.map
        (fun info => info.type) = some MetricType.sum ∧
    outcomeNodeStarts
        (rd_kafka_telemetry_encode_metrics rkC8 1000 111 222 true true true).1 = some [222] ∧
    outcomeNodeStarts
        (rd_kafka_telemetry_encode_metrics rkC8 1000 333 444 true true true).1 = some [444] := by
  decide

/-- C9 counterexample: reset also overwrites the baseline's running-maximum
copy (a field outside the claim's "connect count, assigned-partition count,
ts_last, count-and-sum baselines" write-set): the baseline RTT max goes from
5 to the live 9. -/
theorem c9_reset_overwrites_max_baseline :
    rkC9x.brokers.map (fun b => b.historic.rkb_avg_rtt.maxvInterval) = [5] ∧
    (reset_historical_metrics rkC9x 100).brokers.map
        (fun b => b.historic.rkb_avg_rtt.maxvInterval) = [9] := by
  decide


/-- C4: confirmed.  The connection-creation-rate calculator returns the
client-wide connect delta divided by the elapsed whole seconds since the
(last broker's) baseline `ts_last` when that elapsed value is strictly
positive, and the raw delta sum (no division) otherwise; in particular at
`nowNs = ts_last` it returns the raw delta sum. -/
theorem c4_connection_rate_formula (rk : Client) (nowNs : Int) :
    (calculate_connection_creation_rate rk nowNs =
      if Int.tdiv (nowNs - connRateTsLastSpec rk) 1000000000 > 0 then
        ((rawConnDeltaSum rk : Int) : ℚ) /
          ((Int.tdiv (nowNs - connRateTsLastSpec rk) 1000000000 : Int) : ℚ)
      else ((rawConnDeltaSum rk : Int) : ℚ)) ∧
    calculate_connection_creation_rate rk (connRateTsLast rk) =
      ((rawConnDeltaSum rk : Int) : ℚ) := by
  have hts : connRateTsLast rk = connRateTsLastSpec rk := by
    unfold connRateTsLast connRateTsLastSpec
    exact foldl_tsLast_eq rk.brokers 0
  have htot :
      rk.brokers.foldl
          (fun acc rkb => acc + ((rkb.connects - rkb.historic.connects : Int) : ℚ)) 0
        = ((rawConnDeltaSum rk : Int) : ℚ) := by
    rw [foldl_connDelta_eq]
    simp [rawConnDeltaSum]
  constructor
  · simp only [calculate_connection_creation_rate]
    rw [htot, hts]
  · simp only [calculate_connection_creation_rate]
    rw [htot, sub_self, Int.zero_tdiv]
    simp

/-- C10: confirmed.  The rate calculator truncates the elapsed time to whole
seconds before the positivity test, so any call less than one second after
the last reset returns the raw delta sum; and the `ts_last` it divides
against is the single LAST-iterated broker's baseline timestamp. -/
theorem c10_rate_truncation_and_last_broker_ts (rk : Client) (nowNs : Int) :
    (0 ≤ nowNs - connRateTsLast rk → nowNs - connRateTsLast rk < 1000000000 →
      calculate_connection_creation_rate rk nowNs = ((rawConnDeltaSum rk : Int) : ℚ)) ∧
    (∀ b : Broker, rk.brokers.getLast? = some b →
      connRateTsLast rk = b.historic.tsLast) := by
  constructor
  · intro h1 h2
    have htot :
        rk.brokers.foldl
            (fun acc rkb => acc + ((rkb.connects - rkb.historic.connects : Int) : ℚ)) 0
          = ((rawConnDeltaSum rk : Int) : ℚ) := by
      rw [foldl_connDelta_eq]
      simp [rawConnDeltaSum]
    have hz : Int.tdiv (nowNs - connRateTsLast rk) 1000000000 = 0 :=
      Int.tdiv_eq_zero_of_lt h1 h2
    simp only [calculate_connection_creation_rate]
    rw [htot, hz]
    simp
  · intro b hb
    unfold connRateTsLast
    rw [foldl_tsLast_eq, hb]
    rfl

/-- C10 witness: with baseline timestamps 100 and 700 and `nowNs` exactly
999,999,999 ns after the last broker's baseline, the value is the raw delta
sum, and the timestamp used is the last broker's (700). -/
theorem c10_rate_truncation_witness :
    calculate_connection_creation_rate rkC10w 1000000699 =
      ((rawConnDeltaSum rkC10w : Int) : ℚ) ∧
    connRateTsLast rkC10w = 700 := by
  constructor
  · exact (c10_rate_truncation_and_last_broker_ts rkC10w 1000000699).1
      (by decide) (by decide)
  · exact ((c10_rate_truncation_and_last_broker_ts rkC10w 0).2
      ({ brokerZero 2 with
           connects := 4
           historic := { histZero with connects := 1, tsLast := 700 } })
      (by decide)).trans (by decide)

/-- C5: confirmed.  With strictly newer observations the average-RTT
calculator returns the sum delta divided (C integer division) by the count
delta times the nanosecond-to-millisecond factor 1,000,000; with no new
observations it returns 0. -/
theorem c5_broker_avg_rtt_formula (b : Broker) :
    (b.rkb_avg_rtt.cnt > b.historic.rkb_avg_rtt.cnt →
      calculate_broker_avg_rtt b =
        ((Int.tdiv (b.rkb_avg_rtt.sum - b.historic.rkb_avg_rtt.sum)
            ((b.rkb_avg_rtt.cnt - b.historic.rkb_avg_rtt.cnt) * 1000000) : Int) : ℚ)) ∧
    (b.rkb_avg_rtt.cnt ≤ b.historic.rkb_avg_rtt.cnt →
      calculate_broker_avg_rtt b = 0) := by
  unfold calculate_broker_avg_rtt NS_TO_MS_FACTOR
  constructor
  · intro h
    rw [if_pos h]
  · intro h
    rw [if_neg (not_lt.mpr h)]

/-- C5 witness: five observations newer than the baseline with sum delta 50
give exactly `50 / (5 * 1,000,000)` under C integer division (which is 0 at
millisecond scale). -/
theorem c5_broker_avg_rtt_witness :
    bC5w.rkb_avg_rtt.cnt = bC5w.historic.rkb_avg_rtt.cnt + 5 ∧
    bC5w.rkb_avg_rtt.sum - bC5w.historic.rkb_avg_rtt.sum = 50 ∧
    calculate_broker_avg_rtt bC5w = ((Int.tdiv 50 (5 * 1000000) : Int) : ℚ) := by
  refine ⟨by decide, by decide, ?_⟩
  have h := (c5_broker_avg_rtt_formula bC5w).1 (by decide)
  rw [h]
  decide

/-- C2: confirmed.  If the size pass, the buffer allocation, or the write
pass fails (and the call does not hit undefined behavior earlier), the call
returns NULL, the client state — the Historic Snapshot Store included — is
left unmodified, and reset is not invoked; reset is invoked exactly once,
and only, on the fully successful path. -/
theorem c2_encode_failure_frame_and_reset_once (rk : Client)
    (nowNs u1 u2 : Int) (sizeOk allocOk writeOk : Bool) :
    (¬(sizeOk = true ∧ allocOk = true ∧ writeOk = true) →
      (rd_kafka_telemetry_encode_metrics rk nowNs u1 u2 sizeOk allocOk writeOk).1 ≠
        EncodeOutcome.fault →
      (rd_kafka_telemetry_encode_metrics rk nowNs u1 u2 sizeOk allocOk writeOk).1 =
          EncodeOutcome.failed ∧
        (rd_kafka_telemetry_encode_metrics rk nowNs u1 u2 sizeOk allocOk writeOk).2.1 = rk ∧
        (rd_kafka_telemetry_encode_metrics rk nowNs u1 u2 sizeOk allocOk writeOk).2.2 = 0) ∧
    (∀ md, (rd_kafka_telemetry_encode_metrics rk nowNs u1 u2 sizeOk allocOk writeOk).1 =
        EncodeOutcome.ok md →
      (sizeOk = true ∧ allocOk = true ∧ writeOk = true) ∧
        (rd_kafka_telemetry_encode_metrics rk nowNs u1 u2 sizeOk allocOk writeOk).2.1 =
          reset_historical_metrics rk nowNs ∧
        (rd_kafka_telemetry_encode_metrics rk nowNs u1 u2 sizeOk allocOk writeOk).2.2 = 1) := by
  cases hbp : buildPhase rk nowNs u1 u2 with
  | none =>
    simp [rd_kafka_telemetry_encode_metrics, hbp]
  | some pr =>
    obtain ⟨ra, nodesOpt⟩ := pr
    cases sizeOk <;> cases allocOk <;> cases writeOk <;>
      simp [rd_kafka_telemetry_encode_metrics, hbp]

/-- C2 witness: a failing size pass on the quiescent client returns NULL,
leaves the client untouched and performs no reset. -/
theorem c2_encode_failure_frame_witness :
    (rd_kafka_telemetry_encode_metrics clientZero 5 0 0 false true true).1 =
        EncodeOutcome.failed ∧
      (rd_kafka_telemetry_encode_metrics clientZero 5 0 0 false true true).2.1 =
        clientZero ∧
      (rd_kafka_telemetry_encode_metrics clientZero 5 0 0 false true true).2.2 = 0 :=
  (c2_encode_failure_frame_and_reset_once clientZero 5 0 0 false true true).1
    (by simp) (by decide)

/-- C7: confirmed.  With an empty enabled-metric list (and the
resource-attribute builder completing, cf. C6) the call succeeds: it returns
the minimal empty MetricsData message with zero metric entries — not a
failure — and performs the reset. -/
theorem c7_empty_metrics_encode_ok (rk : Client) (nowNs u1 u2 : Int)
    (ra : List (String × String))
    (hm : rk.matchedMetrics = [])
    (hra : resource_attributes rk = some ra) :
    (rd_kafka_telemetry_encode_metrics rk nowNs u1 u2 true true true).1 =
        EncodeOutcome.ok none ∧
      outcomeMetricCount
        (rd_kafka_telemetry_encode_metrics rk nowNs u1 u2 true true true).1 = some 0 ∧
      (rd_kafka_telemetry_encode_metrics rk nowNs u1 u2 true true true).2.2 = 1 := by
  have hbp : buildPhase rk nowNs u1 u2 = some (ra, none) := by
    unfold buildPhase
    rw [hra]
    simp [totalMetricsCountInt, buildMetrics, hm]
  simp [rd_kafka_telemetry_encode_metrics, hbp, mkMetricsData,
    outcomeMetricCount, countMetricEntries]

/-- C7 witness: a consumer with one broker, a configured group id and an
empty matched-metric list encodes successfully to the empty message. -/
theorem c7_empty_metrics_encode_witness :
    (rd_kafka_telemetry_encode_metrics rkC7w 1000 0 0 true true true).1 =
        EncodeOutcome.ok none ∧
      outcomeMetricCount
        (rd_kafka_telemetry_encode_metrics rkC7w 1000 0 0 true true true).1 = some 0 ∧
      (rd_kafka_telemetry_encode_metrics rkC7w 1000 0 0 true true true).2.2 = 1 :=
  c7_empty_metrics_encode_ok rkC7w 1000 0 0 [("group_id", "g1")] (by decide) (by decide)

/-- C9 (amended): confirmed.  Reset maps every broker to the state where the
baseline receives the current connect count, assigned-partition count, the
reset time as `ts_last`, and the ENTIRE current running-statistics structs
(count, sum and max fields alike — not count-and-sum only), each live
tracker's `maxv_reset` flag is raised, and the baseline `ts_start` is left
unchanged; nothing else of the client changes. -/
theorem c9_reset_frame_amended (rk : Client) (nowNs : Int) :
    (reset_historical_metrics rk nowNs).brokers =
        rk.brokers.map (resetBrokerSpec nowNs) ∧
      (reset_historical_metrics rk nowNs).brokers.map (fun b => b.historic.tsStart) =
        rk.brokers.map (fun b => b.historic.tsStart) ∧
      (reset_historical_metrics rk nowNs).rkType = rk.rkType ∧
      (reset_historical_metrics rk nowNs).matchedMetrics = rk.matchedMetrics ∧
      (reset_historical_metrics rk nowNs).brokerCnt = rk.brokerCnt := by
  refine ⟨rfl, ?_, rfl, rfl, rfl⟩
  show (rk.brokers.map _).map _ = _
  rw [List.map_map]
  rfl
